import Mathlib

/-!
Verification of the fee-transform prototype (`prototype/outbound-inverse.py`).

The prototype computes, for a two-sided linear fee model, the relationship
between an outbound amount and the inbound amount required to cover it.
We embed the arithmetic over `ℚ` (the prototype works with exact integer
parameters and real-valued intermediate amounts).  Python raises a
`ZeroDivisionError` when the inverse divides by a zero multiplier, so the
inverse is embedded as an `Option ℚ`-valued function, with `none` standing
for that error.
-/

/-- The ppm denominator `UNIT_M = 1_000_000` from the source. -/
def UNIT_M : ℚ := 1000000

/-- The fee transform: the two linear coefficients `m` and `n`, derived once
at construction and never mutated. -/
structure FeeStructure where
  m : ℚ
  n : ℚ

namespace FeeStructure

/-- Embedding of `FeeStructure.__init__`: derives `m` and `n` from the four
fee parameters, exactly as the source writes the formulas. -/
def init (fee_rate_out base_out fee_rate_in base_in : ℤ) : FeeStructure where
  m := 1 + (fee_rate_out : ℚ) / UNIT_M * (1 + (fee_rate_in : ℚ) / UNIT_M)
        + (fee_rate_in : ℚ) / UNIT_M
  n := (base_out : ℚ) * (1 + (fee_rate_in : ℚ) / UNIT_M) + (base_in : ℚ)

/-- Embedding of the helper `FeeStructure.f`: the inbound amount ignoring the
floor by the outbound. -/
def f (s : FeeStructure) (x : ℚ) : ℚ := s.m * x + s.n

/-- Embedding of `FeeStructure.inbound_from_outbound`: the inbound amount for
a given outbound amount, floored by the outbound amount. -/
def inbound_from_outbound (s : FeeStructure) (amount : ℚ) : ℚ :=
  max (s.f amount) amount

/-- Embedding of `FeeStructure.outbound_from_inbound`: the derived inverse.
Python's `/` raises `ZeroDivisionError` when `self.m == 0`, embedded here as
`none`; the source performs the division only on the `f(amount) > amount`
branch. -/
def outbound_from_inbound (s : FeeStructure) (amount : ℚ) : Option ℚ :=
  if s.f amount > amount then
    if s.m = 0 then none else some ((amount - s.n) / s.m)
  else some amount

end FeeStructure

/-- Python's builtin `round` to an integer (round half to even), on `ℚ`. -/
def pyRound (q : ℚ) : ℤ :=
  if q - (⌊q⌋ : ℚ) < 1 / 2 then ⌊q⌋
  else if (1 : ℚ) / 2 < q - (⌊q⌋ : ℚ) then ⌊q⌋ + 1
  else if ⌊q⌋ % 2 = 0 then ⌊q⌋ else ⌊q⌋ + 1

namespace FeeStructure

/-- Rounding a rational that is an integer cast returns that integer. -/
theorem pyRound_intCast (k : ℤ) : pyRound ((k : ℚ)) = k := by
  norm_num [pyRound, Int.floor_intCast]

/-- Rounding a rational that is a natural-number cast returns that number. -/
theorem pyRound_natCast (x : ℕ) : pyRound ((x : ℚ)) = (x : ℤ) := by
  have h : ((x : ℕ) : ℚ) = ((x : ℤ) : ℚ) := by push_cast; ring
  rw [h, pyRound_intCast]

/-- With `fee_rate_out ≥ 0` and `fee_rate_in ≥ -10000` the derived multiplier
is positive (indeed at least `0.99`). -/
theorem init_m_pos (fee_rate_out base_out fee_rate_in base_in : ℤ)
    (ha : 0 ≤ fee_rate_out) (hc : -10000 ≤ fee_rate_in) :
    0 < (init fee_rate_out base_out fee_rate_in base_in).m := by
  have ha' : (0 : ℚ) ≤ (fee_rate_out : ℚ) := by exact_mod_cast ha
  have hc' : (-10000 : ℚ) ≤ (fee_rate_in : ℚ) := by exact_mod_cast hc
  simp only [init, UNIT_M]
  have key : (0 : ℚ) ≤ (fee_rate_out : ℚ) / 1000000 * (1 + (fee_rate_in : ℚ) / 1000000) :=
    mul_nonneg (div_nonneg ha' (by norm_num)) (by linarith)
  linarith

/-- Exact round trip for any transform with positive multiplier: the inverse
recovers the outbound amount exactly, with no division-by-zero error. -/
theorem roundtrip_of_m_pos (s : FeeStructure) (hm : 0 < s.m) (x : ℚ) :
    s.outbound_from_inbound (s.inbound_from_outbound x) = some x := by
  simp only [outbound_from_inbound, inbound_from_outbound, f]
  by_cases h : s.m * x + s.n > x
  · rw [max_eq_left h.le]
    have hgt : s.m * (s.m * x + s.n) + s.n > s.m * x + s.n := by
      nlinarith [mul_pos hm (sub_pos.mpr h)]
    rw [if_pos hgt, if_neg hm.ne']
    have hcancel : s.m * x + s.n - s.n = s.m * x := add_sub_cancel_right _ _
    rw [hcancel, mul_div_cancel_left₀ _ hm.ne']
  · push_neg at h
    rw [max_eq_right h, if_neg (not_lt.mpr h)]

/-- Claim C1: for all fee parameters with `fee_rate_out ∈ [0, 10000]`,
`base_out ∈ [0, 2000]`, `fee_rate_in ∈ [-10000, 10000]`, `base_in ∈ [-2000, 2000]`
and every non-negative integer outbound amount `x`, the round trip
`round(outbound_from_inbound(inbound_from_outbound(x)))` returns `x`
(and no division error occurs). -/
theorem roundtrip_law (fee_rate_out base_out fee_rate_in base_in : ℤ)
    (h1 : 0 ≤ fee_rate_out) (h2 : fee_rate_out ≤ 10000)
    (h3 : 0 ≤ base_out) (h4 : base_out ≤ 2000)
    (h5 : -10000 ≤ fee_rate_in) (h6 : fee_rate_in ≤ 10000)
    (h7 : -2000 ≤ base_in) (h8 : base_in ≤ 2000) (x : ℕ) :
    ((init fee_rate_out base_out fee_rate_in base_in).outbound_from_inbound
        ((init fee_rate_out base_out fee_rate_in base_in).inbound_from_outbound
          (x : ℚ))).map pyRound = some (x : ℤ) := by
  rw [roundtrip_of_m_pos _ (init_m_pos _ _ _ _ h1 h5) _]
  simp [pyRound_natCast]

/-- Witness for C1: the round trip at parameters `(1000, 1, 0, 0)` and
outbound amount `1000000`. -/
theorem roundtrip_law_witness :
    ((init 1000 1 0 0).outbound_from_inbound
        ((init 1000 1 0 0).inbound_from_outbound ((1000000 : ℕ) : ℚ))).map pyRound
      = some ((1000000 : ℕ) : ℤ) :=
  roundtrip_law 1000 1 0 0 (by decide) (by decide) (by decide) (by decide)
    (by decide) (by decide) (by decide) (by decide) 1000000

/-- Claim C2: for positive multiplier `m` and non-negative `x`, the inverse's
comparison `f(amount) > amount`, evaluated at `inbound_from_outbound(x)`,
holds exactly when the forward floor was not active at `x`, and the round
trip is exact in rational arithmetic. -/
theorem branch_selection_exact (s : FeeStructure) (hm : 0 < s.m) (x : ℚ) (hx : 0 ≤ x) :
    (s.f (s.inbound_from_outbound x) > s.inbound_from_outbound x ↔ s.f x > x) ∧
    s.outbound_from_inbound (s.inbound_from_outbound x) = some x := by
  refine ⟨?_, roundtrip_of_m_pos s hm x⟩
  simp only [inbound_from_outbound, f]
  by_cases h : s.m * x + s.n > x
  · rw [max_eq_left h.le]
    constructor
    · intro _
      exact h
    · intro _
      nlinarith [mul_pos hm (sub_pos.mpr h)]
  · push_neg at h
    rw [max_eq_right h]

/-- Witness for C2: the transform with `m = 2`, `n = 1` at `x = 3`. -/
theorem branch_selection_exact_witness :
    ((FeeStructure.mk 2 1).f ((FeeStructure.mk 2 1).inbound_from_outbound 3) >
        (FeeStructure.mk 2 1).inbound_from_outbound 3 ↔ (FeeStructure.mk 2 1).f 3 > 3) ∧
    (FeeStructure.mk 2 1).outbound_from_inbound
        ((FeeStructure.mk 2 1).inbound_from_outbound 3) = some 3 :=
  branch_selection_exact ⟨2, 1⟩ (by decide) 3 (by decide)

/-- Claim C3: construction sets `m = 1 + (fee_rate_out/1e6) * (1 + fee_rate_in/1e6)
+ fee_rate_in/1e6` and `n = base_out * (1 + fee_rate_in/1e6) + base_in`. -/
theorem init_coeffs (fee_rate_out base_out fee_rate_in base_in : ℤ) :
    (init fee_rate_out base_out fee_rate_in base_in).m
        = 1 + (fee_rate_out : ℚ) / 1000000 * (1 + (fee_rate_in : ℚ) / 1000000)
          + (fee_rate_in : ℚ) / 1000000 ∧
    (init fee_rate_out base_out fee_rate_in base_in).n
        = (base_out : ℚ) * (1 + (fee_rate_in : ℚ) / 1000000) + (base_in : ℚ) :=
  ⟨rfl, rfl⟩

/-- Claim C4: for every transform and every non-negative amount,
`inbound_from_outbound(amount) = max(m * amount + n, amount)`. -/
theorem inbound_from_outbound_eq_max (s : FeeStructure) (amount : ℚ) (h : 0 ≤ amount) :
    s.inbound_from_outbound amount = max (s.m * amount + s.n) amount := rfl

/-- Witness for C4: the transform with `m = 2`, `n = 1` at amount `3`. -/
theorem inbound_from_outbound_eq_max_witness :
    (FeeStructure.mk 2 1).inbound_from_outbound 3
      = max ((FeeStructure.mk 2 1).m * 3 + (FeeStructure.mk 2 1).n) 3 :=
  inbound_from_outbound_eq_max ⟨2, 1⟩ 3 (by decide)

/-- Claim C5: for every transform and non-negative inbound amount,
`outbound_from_inbound` returns `(amount - n) / m` when `m * amount + n > amount`
(and `m ≠ 0`, the non-degenerate case singled out by the design), and returns
`amount` otherwise. -/
theorem outbound_from_inbound_branches (s : FeeStructure) (amount : ℚ) (h0 : 0 ≤ amount) :
    (s.m * amount + s.n > amount → s.m ≠ 0 →
      s.outbound_from_inbound amount = some ((amount - s.n) / s.m)) ∧
    (¬ s.m * amount + s.n > amount → s.outbound_from_inbound amount = some amount) := by
  constructor
  · intro h hm
    simp only [outbound_from_inbound, f]
    rw [if_pos h, if_neg hm]
  · intro h
    simp only [outbound_from_inbound, f]
    rw [if_neg h]

/-- Witness for C5: the transform with `m = 2`, `n = 1` at amount `3`. -/
theorem outbound_from_inbound_branches_witness :
    ((FeeStructure.mk 2 1).m * 3 + (FeeStructure.mk 2 1).n > 3 →
        (FeeStructure.mk 2 1).m ≠ 0 →
      (FeeStructure.mk 2 1).outbound_from_inbound 3
        = some ((3 - (FeeStructure.mk 2 1).n) / (FeeStructure.mk 2 1).m)) ∧
    (¬ (FeeStructure.mk 2 1).m * 3 + (FeeStructure.mk 2 1).n > 3 →
      (FeeStructure.mk 2 1).outbound_from_inbound 3 = some 3) :=
  outbound_from_inbound_branches ⟨2, 1⟩ 3 (by decide)

/-- Claim C6: for every constructed transform (any four fee parameters) and
every amount, `inbound_from_outbound(amount) ≥ amount`. -/
theorem inbound_from_outbound_ge_amount (fee_rate_out base_out fee_rate_in base_in : ℤ)
    (amount : ℚ) :
    amount ≤ (init fee_rate_out base_out fee_rate_in base_in).inbound_from_outbound amount :=
  le_max_right _ _

/-- Counterexample for C7: the constructed transform with parameters
`(0, 0, -2000000, 5)` has `m = -1`, `n = 5`; at inbound amount `0` the
inverse returns `5`, which is not `≤ 0`. -/
theorem outbound_from_inbound_le_cex :
    (init 0 0 (-2000000) 5).outbound_from_inbound 0 = some 5 ∧ ¬ ((5 : ℚ) ≤ 0) := by
  constructor
  · norm_num [init, outbound_from_inbound, f, UNIT_M]
  · norm_num

/-- Amended C7: for every transform with positive multiplier `m` and every
non-negative inbound amount, any value `outbound_from_inbound` returns is at
most that amount. -/
theorem outbound_from_inbound_le_amount (s : FeeStructure) (hm : 0 < s.m) (amount : ℚ)
    (h0 : 0 ≤ amount) (y : ℚ) (hy : s.outbound_from_inbound amount = some y) :
    y ≤ amount := by
  simp only [outbound_from_inbound, f] at hy
  by_cases h : s.m * amount + s.n > amount
  · rw [if_pos h, if_neg hm.ne'] at hy
    injection hy with hy
    rw [← hy, div_le_iff₀ hm]
    nlinarith
  · rw [if_neg h] at hy
    injection hy with hy
    rw [← hy]

/-- Witness for amended C7: the transform with `m = 1`, `n = 1` at inbound `5`
returns `4 ≤ 5`. -/
theorem outbound_from_inbound_le_amount_witness :
    (FeeStructure.mk 1 1).outbound_from_inbound 5 = some 4 ∧ (4 : ℚ) ≤ 5 :=
  ⟨by norm_num [outbound_from_inbound, f],
    outbound_from_inbound_le_amount ⟨1, 1⟩ (by decide) 5 (by decide) 4
      (by norm_num [outbound_from_inbound, f])⟩

/-- Counterexample for C8: the constructed transform with parameters
`(0, 0, -2000000, 10)` has `m = -1`, `n = 10`; `inbound_from_outbound 0 = 10`
but `inbound_from_outbound 5 = 5`, so the map is not non-decreasing. -/
theorem inbound_from_outbound_mono_cex :
    (0 : ℚ) ≤ 5 ∧
    ¬ ((init 0 0 (-2000000) 10).inbound_from_outbound 0
        ≤ (init 0 0 (-2000000) 10).inbound_from_outbound 5) := by
  constructor
  · norm_num
  · norm_num [init, inbound_from_outbound, f, UNIT_M]

/-- Amended C8: for every transform with non-negative multiplier `m`,
`inbound_from_outbound` is non-decreasing. -/
theorem inbound_from_outbound_mono (s : FeeStructure) (hm : 0 ≤ s.m) (a b : ℚ)
    (hab : a ≤ b) :
    s.inbound_from_outbound a ≤ s.inbound_from_outbound b := by
  simp only [inbound_from_outbound, f]
  exact max_le_max (add_le_add_right (mul_le_mul_of_nonneg_left hab hm) s.n) hab

/-- Witness for amended C8: the transform with `m = 1`, `n = 1` at `2 ≤ 3`. -/
theorem inbound_from_outbound_mono_witness :
    (FeeStructure.mk 1 1).inbound_from_outbound 2
      ≤ (FeeStructure.mk 1 1).inbound_from_outbound 3 :=
  inbound_from_outbound_mono ⟨1, 1⟩ (by decide) 2 3 (by decide)

/-- Counterexample for C9: the constructed transform with parameters
`(0, 0, -1000000, 0)` has `m = 0`, yet at inbound amount `0` the inverse
takes the identity branch and returns `0` with no error. -/
theorem m_zero_no_error_cex :
    (init 0 0 (-1000000) 0).m = 0 ∧
    (init 0 0 (-1000000) 0).outbound_from_inbound 0 = some 0 := by
  constructor
  · norm_num [init, UNIT_M]
  · norm_num [init, outbound_from_inbound, f, UNIT_M]

/-- Amended C9: for every transform with `m = 0` and every non-negative
amount, `outbound_from_inbound` fails with a division-by-zero error exactly
when the linear branch is selected (`f(amount) > amount`), and returns
`amount` otherwise. -/
theorem m_zero_error_iff (s : FeeStructure) (hm : s.m = 0) (amount : ℚ)
    (h0 : 0 ≤ amount) :
    s.outbound_from_inbound amount
      = if s.f amount > amount then none else some amount := by
  simp only [outbound_from_inbound]
  by_cases h : s.f amount > amount
  · rw [if_pos h, if_pos hm, if_pos h]
  · rw [if_neg h, if_neg h]

/-- Witness for amended C9: the transform with `m = 0`, `n = 1` at inbound
amount `0` (linear branch selected, error). -/
theorem m_zero_error_iff_witness :
    (FeeStructure.mk 0 1).outbound_from_inbound 0
      = if (FeeStructure.mk 0 1).f 0 > 0 then none else some 0 :=
  m_zero_error_iff ⟨0, 1⟩ (by decide) 0 (by decide)

/-- Claim C10: with the valid parameters `(0, 1, 0, 0)` (so `m = 1`, `n = 1`)
and inbound amount `0`, `outbound_from_inbound` returns the strictly negative
value `-1`: the inverse is not clamped below at zero. -/
theorem outbound_from_inbound_negative :
    (init 0 1 0 0).outbound_from_inbound 0 = some (-1) ∧ ((-1 : ℚ) < 0) := by
  constructor
  · norm_num [init, outbound_from_inbound, f, UNIT_M]
  · norm_num

end FeeStructure
